import Mathlib

/-
Verification development for the Code Amalgamator (combine.py).

The definitions below are a shallow embedding of the core pipeline of
combine.py: path/extension handling (os.path.splitext on lower-cased
paths), the binary/include classifier, the separator formatter, the
encoding-fallback content reader, the pruning tree walk of os.walk, and
the per-file accounting loop of run_combination.

The filesystem is modelled as a pure structure FS: readBytes gives the
byte contents of a path (Except carries the error message of a failed
open/read, i.e. str(e) in Python), isfile is os.path.isfile.  The only
source of run-time exceptions inside the per-file try-block of
run_combination is real I/O (relpath / outfile.write); that is modelled
by an oracle mapping each path to the message of the exception raised
while processing it, if any.
-/

namespace Amalg

/-- Last index of character c in cs, as in Python str.rfind: -1 if absent. -/
def rfindIdx (cs : List Char) (c : Char) : Int :=
  match cs.reverse.findIdx? (fun x => x == c) with
  | some i => (cs.length : Int) - 1 - (i : Int)
  | none => -1

/-- Embedding of os.path.splitext (POSIX): split off the extension at the
last dot of the final path component, unless every character of that
component before the dot is itself a dot (so ".bashrc" has no extension). -/
def splitext (p : String) : String × String :=
  let cs := p.data
  let sepIdx := rfindIdx cs '/'
  let dotIdx := rfindIdx cs '.'
  if decide (sepIdx < dotIdx) &&
      cs.enum.any (fun pr =>
        decide (sepIdx < (pr.1 : Int)) && decide ((pr.1 : Int) < dotIdx) && (pr.2 != '.'))
  then (⟨cs.take dotIdx.toNat⟩, ⟨cs.drop dotIdx.toNat⟩)
  else (p, "")

/-- Python str.lower restricted to ASCII letters, character by character
(extensions and the paths compared here are ASCII). -/
def pyLower (s : String) : String :=
  ⟨s.data.map Char.toLower⟩

/-- Lower-cased extension of a path: os.path.splitext(p.lower())[1], as
computed by is_binary_file, should_include_file and create_separator. -/
def lowerExt (p : String) : String :=
  (splitext (pyLower p)).2

/-- Comment style of an extension: either a line-comment token or a
(start, end) block-comment pair, mirroring the value shapes in COMMENT_MAP. -/
inductive CommentStyle where
  | line (tok : String)
  | block (s e : String)
deriving DecidableEq, Repr

/-- Embedding of COMMENT_MAP: extension to comment style. -/
def COMMENT_MAP : List (String × CommentStyle) :=
  [(".js", .line "//"), (".jsx", .line "//"), (".ts", .line "//"),
   (".tsx", .line "//"), (".java", .line "//"),
   (".c", .line "//"), (".h", .line "//"), (".cpp", .line "//"),
   (".hpp", .line "//"), (".cs", .line "//"),
   (".go", .line "//"), (".swift", .line "//"), (".kt", .line "//"),
   (".rs", .line "//"), (".scala", .line "//"),
   (".m", .line "//"), (".mm", .line "//"),
   (".py", .line "#"), (".rb", .line "#"), (".sh", .line "#"),
   (".pl", .line "#"), (".yml", .line "#"),
   (".yaml", .line "#"), (".dockerfile", .line "#"), (".r", .line "#"),
   (".ps1", .line "#"),
   (".conf", .line "#"), (".ini", .line "#"), (".cfg", .line "#"),
   (".env", .line "#"),
   (".css", .block "/*" "*/"), (".scss", .block "/*" "*/"),
   (".less", .block "/*" "*/"),
   (".html", .block "<!--" "-->"), (".xml", .block "<!--" "-->"),
   (".vue", .block "<!--" "-->"),
   (".svg", .block "<!--" "-->"), (".md", .block "<!--" "-->"),
   (".sql", .line "--"),
   (".lua", .line "--"),
   (".bat", .line "REM"),
   (".json", .line "//"),
   (".txt", .line "#")]

/-- Embedding of INCLUDE_EXTENSIONS (the module-level default list). -/
def INCLUDE_EXTENSIONS : List String :=
  [".py", ".js", ".jsx", ".ts", ".tsx", ".java", ".c", ".h", ".cpp", ".hpp",
   ".cs", ".go", ".swift", ".kt", ".rs", ".scala", ".rb", ".sh", ".pl",
   ".yml", ".yaml", ".css", ".scss", ".less", ".html", ".xml", ".vue",
   ".svg", ".md", ".sql", ".lua", ".bat", ".json", ".txt", ".dockerfile",
   ".env", ".conf", ".ini", ".cfg"]

/-- Embedding of BINARY_EXTENSIONS. -/
def BINARY_EXTENSIONS : List String :=
  [".exe", ".dll", ".so", ".dylib", ".bin", ".obj", ".o", ".a", ".lib",
   ".jar", ".war", ".ear", ".class", ".pyc", ".pyo", ".pyd",
   ".jpg", ".jpeg", ".png", ".gif", ".bmp", ".ico", ".tiff", ".svg",
   ".mp3", ".mp4", ".avi", ".mov", ".wmv", ".flv", ".mkv",
   ".pdf", ".doc", ".docx", ".xls", ".xlsx", ".ppt", ".pptx",
   ".zip", ".rar", ".7z", ".tar", ".gz", ".bz2"]

/-- Pure filesystem model: readBytes is open(path, "rb") followed by a full
read (an Except error carries the exception message), isfile is
os.path.isfile. -/
structure FS where
  readBytes : String → Except String (List Nat)
  isfile : String → Bool

/-- Embedding of is_binary_file: binary extension, or a null byte in the
first 1024 bytes, or any failure to open/read the file. -/
def is_binary_file (fs : FS) (p : String) : Bool :=
  if BINARY_EXTENSIONS.contains (lowerExt p) then
    true
  else
    match fs.readBytes p with
    | .error _ => true
    | .ok bs => if (bs.take 1024).contains 0 then true else false

/-- Embedding of should_include_file.  The Python function reads the
module-level INCLUDE_EXTENSIONS at call time; that value is passed here as
the parameter incl. -/
def should_include_file (incl : List String) (fs : FS) (p : String) : Bool :=
  if !(fs.isfile p) then
    false
  else if is_binary_file fs p then
    false
  else if incl.isEmpty then
    true
  else
    incl.contains (lowerExt p)

/-- Python string repetition s * n. -/
def strRepeat (s : String) (n : Nat) : String :=
  String.join (List.replicate n s)

/-- Python character repetition for the block padding: c * n. -/
def charRepeat (c : Char) (n : Nat) : String :=
  ⟨List.replicate n c⟩

/-- Padding length of the block-comment separator:
max(0, 80 - len(separator_text) - len(start) - len(end)). -/
def blockPadLen (s e sepText : String) : Nat :=
  (max 0 (80 - (sepText.length : Int) - (s.length : Int) - (e.length : Int))).toNat

/-- The except-branch fallback of create_separator: a plain "=" bordered
block around the raw path. -/
def fallbackSep (p : String) : String :=
  "\n" ++ strRepeat "=" 80 ++ "\n=== " ++ p ++ " ===\n" ++ strRepeat "=" 80 ++ "\n\n"

/-- Body of create_separator once the comment style is resolved.  A block
style with an empty start token is the one input on which the Python body
raises (start[0] is an IndexError) and lands in the except fallback. -/
def create_separator_styled (style : CommentStyle) (p : String) : String :=
  match style with
  | .block s e =>
    match s.data with
    | [] => fallbackSep p
    | c :: _ =>
      "\n" ++ s ++ (" File: " ++ p ++ " ")
        ++ charRepeat c (blockPadLen s e (" File: " ++ p ++ " ")) ++ e ++ "\n\n"
  | .line tok =>
    "\n" ++ strRepeat tok 80 ++ "\n"
      ++ (tok ++ " " ++ (" File: " ++ p ++ " ") ++ " " ++ tok)
      ++ "\n" ++ strRepeat tok 80 ++ "\n\n"

/-- Embedding of create_separator: look up the lower-cased extension in
COMMENT_MAP, defaulting to the "#" line style. -/
def create_separator (p : String) : String :=
  create_separator_styled ((COMMENT_MAP.lookup (lowerExt p)).getD (CommentStyle.line "#")) p

/-- Continuation byte test for UTF-8: 0x80-0xBF. -/
def contByte (b : Nat) : Bool :=
  0x80 ≤ b && b ≤ 0xBF

/-- Admissible range of the byte right after a 3- or 4-byte UTF-8 lead,
per the strict decoder (no overlongs, no surrogates, max U+10FFFF). -/
def utf8SecondOk (b b2 : Nat) : Bool :=
  if b == 0xE0 then 0xA0 ≤ b2 && b2 ≤ 0xBF
  else if b == 0xED then 0x80 ≤ b2 && b2 ≤ 0x9F
  else if b == 0xF0 then 0x90 ≤ b2 && b2 ≤ 0xBF
  else if b == 0xF4 then 0x80 ≤ b2 && b2 ≤ 0x8F
  else contByte b2

/-- Code point assembled from a 2-byte UTF-8 sequence. -/
def cp2 (b b2 : Nat) : Nat :=
  (b - 0xC0) * 0x40 + (b2 - 0x80)

/-- Code point assembled from a 3-byte UTF-8 sequence. -/
def cp3 (b b2 b3 : Nat) : Nat :=
  (b - 0xE0) * 0x1000 + (b2 - 0x80) * 0x40 + (b3 - 0x80)

/-- Code point assembled from a 4-byte UTF-8 sequence. -/
def cp4 (b b2 b3 b4 : Nat) : Nat :=
  (b - 0xF0) * 0x40000 + (b2 - 0x80) * 0x1000 + (b3 - 0x80) * 0x40 + (b4 - 0x80)

/-- Strict UTF-8 decoding of a byte sequence to code points, as Python's
"utf-8" codec in its default strict mode: none models UnicodeDecodeError. -/
def decodeUtf8Cps : List Nat → Option (List Nat)
  | [] => some []
  | b :: rest =>
    if b ≤ 0x7F then
      (decodeUtf8Cps rest).map (fun cps => b :: cps)
    else if 0xC2 ≤ b && b ≤ 0xDF then
      match rest with
      | b2 :: r =>
        if contByte b2 then (decodeUtf8Cps r).map (fun cps => cp2 b b2 :: cps) else none
      | [] => none
    else if 0xE0 ≤ b && b ≤ 0xEF then
      match rest with
      | b2 :: b3 :: r =>
        if utf8SecondOk b b2 && contByte b3 then
          (decodeUtf8Cps r).map (fun cps => cp3 b b2 b3 :: cps)
        else none
      | _ => none
    else if 0xF0 ≤ b && b ≤ 0xF4 then
      match rest with
      | b2 :: b3 :: b4 :: r =>
        if utf8SecondOk b b2 && contByte b3 && contByte b4 then
          (decodeUtf8Cps r).map (fun cps => cp4 b b2 b3 b4 :: cps)
        else none
      | _ => none
    else none

/-- Python's "utf-8-sig" codec: strip a leading BOM if present, then
decode as strict UTF-8. -/
def decodeUtf8SigCps (bs : List Nat) : Option (List Nat) :=
  match bs with
  | 0xEF :: 0xBB :: 0xBF :: rest => decodeUtf8Cps rest
  | _ => decodeUtf8Cps bs

/-- Single-byte mapping of Python's "cp1252" codec: bytes 0x80-0x9F are
remapped per the Windows-1252 table, five bytes are undefined, all other
bytes map to themselves. -/
def cp1252Map (b : Nat) : Option Nat :=
  if b == 0x80 then some 0x20AC
  else if b == 0x82 then some 0x201A
  else if b == 0x83 then some 0x0192
  else if b == 0x84 then some 0x201E
  else if b == 0x85 then some 0x2026
  else if b == 0x86 then some 0x2020
  else if b == 0x87 then some 0x2021
  else if b == 0x88 then some 0x02C6
  else if b == 0x89 then some 0x2030
  else if b == 0x8A then some 0x0160
  else if b == 0x8B then some 0x2039
  else if b == 0x8C then some 0x0152
  else if b == 0x8E then some 0x017D
  else if b == 0x91 then some 0x2018
  else if b == 0x92 then some 0x2019
  else if b == 0x93 then some 0x201C
  else if b == 0x94 then some 0x201D
  else if b == 0x95 then some 0x2022
  else if b == 0x96 then some 0x2013
  else if b == 0x97 then some 0x2014
  else if b == 0x98 then some 0x02DC
  else if b == 0x99 then some 0x2122
  else if b == 0x9A then some 0x0161
  else if b == 0x9B then some 0x203A
  else if b == 0x9C then some 0x0153
  else if b == 0x9E then some 0x017E
  else if b == 0x9F then some 0x0178
  else if b ≤ 0x7F || (0xA0 ≤ b && b ≤ 0xFF) then some b
  else none

/-- Python's "cp1252" codec over a whole byte sequence. -/
def decodeCp1252Cps : List Nat → Option (List Nat)
  | [] => some []
  | b :: rest =>
    match cp1252Map b with
    | some c => (decodeCp1252Cps rest).map (fun cps => c :: cps)
    | none => none

/-- Python's "utf-8" codec with errors="replace": total, substituting
U+FFFD for each maximal invalid subpart. -/
def decodeUtf8ReplaceCps : List Nat → List Nat
  | [] => []
  | b :: rest =>
    if b ≤ 0x7F then
      b :: decodeUtf8ReplaceCps rest
    else if 0xC2 ≤ b && b ≤ 0xDF then
      match rest with
      | b2 :: r =>
        if contByte b2 then cp2 b b2 :: decodeUtf8ReplaceCps r
        else 0xFFFD :: decodeUtf8ReplaceCps (b2 :: r)
      | [] => [0xFFFD]
    else if 0xE0 ≤ b && b ≤ 0xEF then
      match rest with
      | b2 :: r2 =>
        if utf8SecondOk b b2 then
          match r2 with
          | b3 :: r =>
            if contByte b3 then cp3 b b2 b3 :: decodeUtf8ReplaceCps r
            else 0xFFFD :: decodeUtf8ReplaceCps (b3 :: r)
          | [] => [0xFFFD]
        else 0xFFFD :: decodeUtf8ReplaceCps (b2 :: r2)
      | [] => [0xFFFD]
    else if 0xF0 ≤ b && b ≤ 0xF4 then
      match rest with
      | b2 :: r2 =>
        if utf8SecondOk b b2 then
          match r2 with
          | b3 :: r3 =>
            if contByte b3 then
              match r3 with
              | b4 :: r =>
                if contByte b4 then cp4 b b2 b3 b4 :: decodeUtf8ReplaceCps r
                else 0xFFFD :: decodeUtf8ReplaceCps (b4 :: r)
              | [] => [0xFFFD]
            else 0xFFFD :: decodeUtf8ReplaceCps (b3 :: r3)
          | [] => [0xFFFD]
        else 0xFFFD :: decodeUtf8ReplaceCps (b2 :: r2)
      | [] => [0xFFFD]
    else 0xFFFD :: decodeUtf8ReplaceCps rest
termination_by bs => bs.length

/-- Code points to a Lean string. -/
def cpsToString (cps : List Nat) : String :=
  ⟨cps.map Char.ofNat⟩

/-- Universal-newline translation applied by text-mode open: CRLF and lone
CR both become LF. -/
def univNl : List Char → List Char
  | [] => []
  | '\r' :: '\n' :: r => '\n' :: univNl r
  | '\r' :: r => '\n' :: univNl r
  | c :: r => c :: univNl r

/-- Universal-newline translation on strings. -/
def universalNewlines (s : String) : String :=
  ⟨univNl s.data⟩

/-- The encodings list of read_file_safely, paired with the byte-level
decoder of each codec name. -/
def ENCODING_DECODERS : List (String × (List Nat → Option (List Nat))) :=
  [("utf-8", decodeUtf8Cps),
   ("utf-8-sig", decodeUtf8SigCps),
   ("latin-1", fun bs => some bs),
   ("cp1252", decodeCp1252Cps),
   ("iso-8859-1", fun bs => some bs)]

/-- The for-loop of read_file_safely: open and decode with each encoding
in turn; a failed open (any non-Unicode exception) or a UnicodeDecodeError
both fall through to the next encoding.  Text-mode reads apply
universal-newline translation. -/
def tryEncodings (fs : FS) (p : String) :
    List (String × (List Nat → Option (List Nat))) → Option (String × String)
  | [] => none
  | (name, dec) :: rest =>
    match fs.readBytes p with
    | .error _ => tryEncodings fs p rest
    | .ok bs =>
      match dec bs with
      | some cps => some (universalNewlines (cpsToString cps), name)
      | none => tryEncodings fs p rest

/-- The tail of read_file_safely after the encoding loop: re-read in
binary mode and decode as UTF-8 with errors="replace" (no newline
translation there), or, if even the binary open fails, return the
synthetic error string with tag "error". -/
def readReplaceFallback (fs : FS) (p : String) : String × String :=
  match fs.readBytes p with
  | .ok bs => (cpsToString (decodeUtf8ReplaceCps bs), "utf-8 (with errors)")
  | .error e => ("[ERROR: Could not read file " ++ p ++ ": " ++ e ++ "]\n", "error")

/-- Embedding of read_file_safely. -/
def read_file_safely (fs : FS) (p : String) : String × String :=
  match tryEncodings fs p ENCODING_DECODERS with
  | some r => r
  | none => readReplaceFallback fs p

/-- Directory tree: a directory name, the files directly inside it, and
its subdirectories.  This is the filesystem shape os.walk traverses. -/
inductive DirTree where
  | node (name : String) (files : List String) (subs : List DirTree)
deriving Repr

/-- Name of a directory node. -/
def DirTree.name : DirTree → String
  | .node n _ _ => n

/-- Python's d.startswith(".") on a directory name: true iff the first
character is a dot. -/
def startsWithDot (s : String) : Bool :=
  match s.data with
  | [] => false
  | c :: _ => c == '.'

/-- The pruning predicate of run_combination, line 412 of combine.py:
a subdirectory survives iff its name is not in the ignore set and does not
start with a dot. -/
def keepDir (ignore : List String) (t : DirTree) : Bool :=
  !(ignore.contains (DirTree.name t)) && !(startsWithDot (DirTree.name t))

mutual

/-- Embedding of the pruned os.walk of run_combination, restricted to the
file paths it yields: each yielded file is given as (components, filename)
where components are the directory names below the walk root.  The root's
own files come first (os.walk is top-down), then the kept subtrees. -/
def walkFiles (ignore : List String) : DirTree → List (List String × String)
  | .node _ files subs =>
    files.map (fun f => (([] : List String), f)) ++ walkSubs ignore subs

/-- Walk of a directory's subdirectory list: subdirectories failing
keepDir are pruned before descent (dirs[:] = [d for d in dirs if ...]),
so their subtrees are never visited. -/
def walkSubs (ignore : List String) : List DirTree → List (List String × String)
  | [] => []
  | t :: ts =>
    (if keepDir ignore t then
       (walkFiles ignore t).map (fun pr => (DirTree.name t :: pr.1, pr.2))
     else [])
      ++ walkSubs ignore ts

end

/-- Join path components with the separator, as os.path.join does for the
relative paths built during the walk. -/
def joinPath (comps : List String) : String :=
  String.intercalate "/" comps

/-- A selected listbox item: either a directory (with the subtree the walk
will traverse) or a root-level file name. -/
inductive SelectedItem where
  | dir (t : DirTree)
  | file (name : String)

/-- File paths handled for one selected item: a directory item is walked
unconditionally (os.walk(dirname) is called with no ignore-set check on
dirname itself); a file item is the single named file. -/
def itemFilePaths (ignore : List String) : SelectedItem → List String
  | .dir t =>
    (walkFiles ignore t).map (fun pr => joinPath (DirTree.name t :: pr.1 ++ [pr.2]))
  | .file n => [n]

/-- Processing summary of one run: the two counters, the error log, and
the text written to the output sink so far. -/
structure Summary where
  processed : Nat
  errors : Nat
  errorLog : List String
  output : String
deriving Repr, DecidableEq

/-- The per-file body of run_combination: skip the file if
should_include_file rejects it; otherwise either the separator, the
decoded content and two newlines are written and the processed counter is
incremented, or, when an I/O exception is raised while processing the
file (the raises oracle), the error counter is incremented, the message
is logged, and an inline error marker is written in place of content.
The relative path written into the separator equals the walked path here,
since the walk already starts from a cwd-relative directory name. -/
def handleFile (incl : List String) (fs : FS) (raises : String → Option String)
    (st : Summary) (p : String) : Summary :=
  if should_include_file incl fs p then
    match raises p with
    | some msg =>
      { st with
        errors := st.errors + 1,
        errorLog := st.errorLog ++ ["Error processing " ++ p ++ ": " ++ msg],
        output := st.output ++ ("[ERROR: Error processing " ++ p ++ ": " ++ msg ++ "]\n\n") }
    | none =>
      { st with
        processed := st.processed + 1,
        output := st.output ++ create_separator p ++ (read_file_safely fs p).1 ++ "\n\n" }
  else st

/-- Sequential processing of a list of file paths. -/
def runFiles (incl : List String) (fs : FS) (raises : String → Option String)
    (st : Summary) (ps : List String) : Summary :=
  ps.foldl (handleFile incl fs raises) st

/-- The paths of a run that end up counted as processed: included and
raising no exception. -/
def processedPaths (incl : List String) (fs : FS) (raises : String → Option String)
    (ps : List String) : List String :=
  ps.filter (fun p => should_include_file incl fs p && (raises p).isNone)

/-- The paths of a run that end up counted as errors: included but
raising an exception while being processed. -/
def erroredPaths (incl : List String) (fs : FS) (raises : String → Option String)
    (ps : List String) : List String :=
  ps.filter (fun p => should_include_file incl fs p && (raises p).isSome)

/-- All file paths handled by a run, in order, over the selected items. -/
def allItemPaths (ignore : List String) (items : List SelectedItem) : List String :=
  (items.map (itemFilePaths ignore)).flatten

/-- The item loop of run_combination over the selected items. -/
def runItems (ignore incl : List String) (fs : FS) (raises : String → Option String)
    (st : Summary) (items : List SelectedItem) : Summary :=
  items.foldl (fun s it => runFiles incl fs raises s (itemFilePaths ignore it)) st

/-- The fixed document header written before any content; outName stands
for os.path.basename(output_filepath). -/
def headerFor (outName : String) : String :=
  strRepeat "=" 80 ++ "\n" ++ "CODE AMALGAMATOR - COMBINED FILES\n"
    ++ "Generated: " ++ outName ++ "\n" ++ strRepeat "=" 80 ++ "\n\n"

/-- Outcome of a whole run: the final summary, whether the code itself
removed the output file (the os.remove call in the zero-processed branch,
lines 467-471 of combine.py; the removal attempt may still fail and is
then merely logged), and the final status-bar message. -/
structure RunResult where
  summary : Summary
  removedOutput : Bool
  statusMsg : String
deriving Repr, DecidableEq

/-- Embedding of the core of run_combination: write the header, process
every selected item, then either report success, or, when zero files
were processed, remove the output file and report that no files were
found. -/
def run_combination (ignore incl : List String) (fs : FS)
    (raises : String → Option String) (items : List SelectedItem)
    (outName : String) : RunResult :=
  let st := runItems ignore incl fs raises
    { processed := 0, errors := 0, errorLog := [], output := headerFor outName } items
  if st.processed > 0 then
    { summary := st, removedOutput := false,
      statusMsg := "Success! Combined " ++ toString st.processed ++ " files." }
  else
    { summary := st, removedOutput := true,
      statusMsg := "Completed. No files were found." }

end Amalg


namespace Amalg

/-- Concrete demo filesystem used by witness theorems: one readable text
file, one PNG, one extensionless file with a null byte, one file whose
write raises (see raisesDemo), everything else missing. -/
def fsDemo : FS where
  readBytes := fun p =>
    if p == "hello.txt" then .ok [104, 105, 0xFF]
    else if p == "logo.png" then .ok [0x89, 0x50]
    else if p == "data.dat" then .ok [0, 1, 2]
    else if p == "boom.txt" then .ok [104]
    else if p == "lib/b.js" then .ok [104, 105]
    else .error "No such file or directory"
  isfile := fun p =>
    p == "hello.txt" || p == "logo.png" || p == "data.dat" || p == "boom.txt"
      || p == "lib/b.js"

/-- Concrete exception oracle used by witness theorems: processing
boom.txt raises, everything else succeeds. -/
def raisesDemo : String → Option String :=
  fun p => if p == "boom.txt" then some "disk full" else none

/-- Unfolding equation for walkFiles on a node. -/
theorem walkFiles_node (ignore : List String) (name : String) (files : List String)
    (subs : List DirTree) :
    walkFiles ignore (.node name files subs)
      = files.map (fun f => (([] : List String), f)) ++ walkSubs ignore subs := by
  simp [walkFiles]

/-- Unfolding equation for walkSubs on nil. -/
theorem walkSubs_nil (ignore : List String) : walkSubs ignore [] = [] := by
  simp [walkSubs]

/-- Unfolding equation for walkSubs on cons. -/
theorem walkSubs_cons (ignore : List String) (t : DirTree) (ts : List DirTree) :
    walkSubs ignore (t :: ts)
      = (if keepDir ignore t then
           (walkFiles ignore t).map (fun pr => (DirTree.name t :: pr.1, pr.2))
         else [])
          ++ walkSubs ignore ts := by
  simp [walkSubs]

/-- Strong-induction workhorse for the pruning property of the walk:
every directory component recorded for a yielded file survives the
pruning predicate. -/
theorem walk_pruned_aux :
    ∀ (n : Nat) (ignore : List String) (t : DirTree), sizeOf t ≤ n →
      ∀ comps fname, (comps, fname) ∈ walkFiles ignore t →
        ∀ d ∈ comps, ignore.contains d = false ∧ startsWithDot d = false := by
  intro n
  induction n with
  | zero =>
    intro ignore t ht
    exfalso
    cases t with
    | node a b c =>
      simp only [DirTree.node.sizeOf_spec] at ht
      omega
  | succ n ih =>
    intro ignore t ht comps fname hmem d hd
    cases t with
    | node name files subs =>
      rw [walkFiles_node] at hmem
      rcases List.mem_append.mp hmem with hl | hr
      · rcases List.mem_map.mp hl with ⟨f, _, heq⟩
        have hcomps : comps = [] := (Prod.mk.injEq _ _ _ _).mp heq |>.1.symm
        rw [hcomps] at hd
        exact absurd hd (List.not_mem_nil d)
      · have hsub : ∀ t' ∈ subs, sizeOf t' ≤ n := by
          intro t' ht'
          have h1 : sizeOf t' < sizeOf subs := List.sizeOf_lt_of_mem ht'
          simp only [DirTree.node.sizeOf_spec] at ht
          omega
        clear hmem ht
        induction subs with
        | nil =>
          rw [walkSubs_nil] at hr
          exact absurd hr (List.not_mem_nil _)
        | cons t' ts ihs =>
          rw [walkSubs_cons] at hr
          rcases List.mem_append.mp hr with h1 | h2
          · by_cases hk : keepDir ignore t' = true
            · rw [if_pos hk] at h1
              rcases List.mem_map.mp h1 with ⟨pr, hpr, heq⟩
              have hcomps : DirTree.name t' :: pr.1 = comps :=
                ((Prod.mk.injEq _ _ _ _).mp heq).1
              rw [← hcomps] at hd
              simp only [keepDir, Bool.and_eq_true, Bool.not_eq_true'] at hk
              rcases List.mem_cons.mp hd with hdn | hdtail
              · rw [hdn]
                exact hk
              · have hpr2 : (pr.1, pr.2) ∈ walkFiles ignore t' := by
                  rw [Prod.mk.eta]
                  exact hpr
                exact ih ignore t' (hsub t' (List.mem_cons_self t' ts)) pr.1 pr.2 hpr2 d hdtail
            · rw [if_neg hk] at h1
              exact absurd h1 (List.not_mem_nil _)
          · exact ihs h2 (fun t'' ht'' => hsub t'' (List.mem_cons_of_mem t' ht''))

/-- Demo directory tree used by witness theorems. -/
def demoTree : DirTree :=
  .node "src" ["a.py"]
    [.node "lib" ["b.js"] [],
     .node "node_modules" ["dep.js"] [.node "keepme" ["deep.py"] []],
     .node ".git" ["cfg"] []]

/-- C1: the tree walk over a selected directory never yields a file path
located under a subdirectory whose name is in the ignore set or starts
with a dot, at any depth: every directory component recorded below the
walk root passes the pruning filter, so the contents of pruned subtrees
(even ones holding deeper non-ignored directory names) are never
yielded. -/
theorem C1_tree_walk_pruning (ignore : List String) (t : DirTree)
    (comps : List String) (fname : String)
    (h : (comps, fname) ∈ walkFiles ignore t) :
    ∀ d ∈ comps, ignore.contains d = false ∧ startsWithDot d = false :=
  walk_pruned_aux (sizeOf t) ignore t (le_refl _) comps fname h

/-- Witness for C1 at a concrete tree and ignore set. -/
theorem C1_tree_walk_pruning_witness :
    ((["lib"], "b.js") ∈ walkFiles ["node_modules"] demoTree)
      ∧ ∀ d ∈ ["lib"], (["node_modules"] : List String).contains d = false
          ∧ startsWithDot d = false := by
  have hmem : (["lib"], "b.js") ∈ walkFiles ["node_modules"] demoTree := by
    simp [demoTree, walkFiles_node, walkSubs_cons, walkSubs_nil, keepDir, DirTree.name,
      startsWithDot]
  exact ⟨hmem, C1_tree_walk_pruning ["node_modules"] demoTree ["lib"] "b.js" hmem⟩

/-- C5: a selected directory item is walked unconditionally: the walk
never consults the root directory's own name (renaming it leaves the walk
unchanged), and even when that name is in the ignore set, the files
directly inside the selected directory are still yielded and turned into
handled paths; the ignore set prunes only descendants during the walk. -/
theorem C5_selected_dir_walked (ignore : List String) (name name' : String)
    (files : List String) (subs : List DirTree)
    (_h : ignore.contains name = true) :
    walkFiles ignore (.node name files subs) = walkFiles ignore (.node name' files subs)
    ∧ ∀ f ∈ files,
        joinPath [name, f] ∈ itemFilePaths ignore (.dir (.node name files subs)) := by
  constructor
  · rw [walkFiles_node, walkFiles_node]
  · intro f hf
    simp only [itemFilePaths, walkFiles_node, DirTree.name]
    apply List.mem_map.mpr
    refine ⟨([], f), ?_, rfl⟩
    exact List.mem_append.mpr (Or.inl (List.mem_map.mpr ⟨f, hf, rfl⟩))

/-- Witness for C5: a directory literally named node_modules, selected
while node_modules is in the ignore set, still contributes its file. -/
theorem C5_selected_dir_walked_witness :
    joinPath ["node_modules", "x.py"]
      ∈ itemFilePaths ["node_modules"] (.dir (.node "node_modules" ["x.py"] [])) :=
  (C5_selected_dir_walked ["node_modules"] "node_modules" "other" ["x.py"] []
    (by decide)).2 "x.py" (by simp)

/-- C4: is_binary_file is true whenever the lower-cased extension is in
the binary-extension set; true whenever the file cannot be opened or read
(fail safe toward exclusion); and for a readable file without a binary
extension it is true exactly when a null byte occurs among the first 1024
bytes (the read is bounded to 1024 bytes), false otherwise. -/
theorem C4_is_binary_file (fs : FS) (p : String) :
    (lowerExt p ∈ BINARY_EXTENSIONS → is_binary_file fs p = true)
    ∧ (∀ e, fs.readBytes p = .error e → is_binary_file fs p = true)
    ∧ (∀ bs, lowerExt p ∉ BINARY_EXTENSIONS → fs.readBytes p = .ok bs →
        (is_binary_file fs p = true ↔ 0 ∈ bs.take 1024)) := by
  refine ⟨?_, ?_, ?_⟩
  · intro h
    simp [is_binary_file, h]
  · intro e he
    by_cases hx : lowerExt p ∈ BINARY_EXTENSIONS
    · simp [is_binary_file, hx]
    · simp [is_binary_file, hx, he]
  · intro bs hx hok
    by_cases hz : 0 ∈ bs.take 1024
    · simp [is_binary_file, hx, hok, hz]
    · simp [is_binary_file, hx, hok, hz]

/-- Witness for C4: a PNG is binary by extension; a missing file is
binary by failure; an extensionless readable file is binary exactly by
its null byte. -/
theorem C4_is_binary_file_witness :
    is_binary_file fsDemo "logo.png" = true
    ∧ is_binary_file fsDemo "gone.txt" = true
    ∧ is_binary_file fsDemo "data.dat" = true :=
  ⟨(C4_is_binary_file fsDemo "logo.png").1 (by decide),
   (C4_is_binary_file fsDemo "gone.txt").2.1 "No such file or directory" (by rfl),
   ((C4_is_binary_file fsDemo "data.dat").2.2 [0, 1, 2] (by decide) (by rfl)).mpr
     (by decide)⟩

/-- C3: should_include_file is false for a non-regular file; false
whenever is_binary_file is true, hence false for every binary-extension
path regardless of the include set; true for an includable file when the
include set is empty; and otherwise true exactly when the lower-cased
extension is a member of the include set. -/
theorem C3_should_include_file (incl : List String) (fs : FS) (p : String) :
    (fs.isfile p = false → should_include_file incl fs p = false)
    ∧ (is_binary_file fs p = true → should_include_file incl fs p = false)
    ∧ (lowerExt p ∈ BINARY_EXTENSIONS →
        should_include_file incl fs p = false)
    ∧ (fs.isfile p = true → is_binary_file fs p = false → incl = [] →
        should_include_file incl fs p = true)
    ∧ (fs.isfile p = true → is_binary_file fs p = false → incl ≠ [] →
        (should_include_file incl fs p = true ↔ lowerExt p ∈ incl)) := by
  refine ⟨?_, ?_, ?_, ?_, ?_⟩
  · intro h
    simp [should_include_file, h]
  · intro h
    simp [should_include_file, h]
  · intro h
    have hb : is_binary_file fs p = true := by simp [is_binary_file, h]
    simp [should_include_file, hb]
  · intro h1 h2 h3
    simp [should_include_file, h1, h2, h3]
  · intro h1 h2 h3
    have he : incl.isEmpty = false := by
      cases incl with
      | nil => exact absurd rfl h3
      | cons a l => rfl
    simp [should_include_file, h1, h2, he]

/-- Witness for C3: the include-all mode accepts a readable text file,
and the extension filter decides inclusion for a non-empty include set. -/
theorem C3_should_include_file_witness :
    should_include_file [] fsDemo "hello.txt" = true
    ∧ (should_include_file [".py"] fsDemo "hello.txt" = true
        ↔ lowerExt "hello.txt" ∈ ([".py"] : List String)) :=
  ⟨(C3_should_include_file [] fsDemo "hello.txt").2.2.2.1 (by decide) (by decide) rfl,
   (C3_should_include_file [".py"] fsDemo "hello.txt").2.2.2.2 (by decide) (by decide)
     (by decide)⟩

/-- C9: every path with lower-cased extension .svg is classified binary
by extension alone--for every filesystem, so without reading the file--
and is therefore never included, even though .svg is in the default
include-extension list and has a block-comment style in COMMENT_MAP. -/
theorem C9_svg_excluded (incl : List String) (fs : FS) (p : String)
    (h : lowerExt p = ".svg") :
    is_binary_file fs p = true
    ∧ should_include_file incl fs p = false
    ∧ INCLUDE_EXTENSIONS.contains ".svg" = true
    ∧ COMMENT_MAP.lookup ".svg" = some (CommentStyle.block "<!--" "-->") := by
  have hc : lowerExt p ∈ BINARY_EXTENSIONS := by
    rw [h]
    decide
  have hb : is_binary_file fs p = true := by simp [is_binary_file, hc]
  exact ⟨hb, by simp [should_include_file, hb], by decide, by decide⟩

/-- Witness for C9 at a concrete .svg path. -/
theorem C9_svg_excluded_witness :
    is_binary_file fsDemo "icon.svg" = true
    ∧ should_include_file INCLUDE_EXTENSIONS fsDemo "icon.svg" = false :=
  ⟨(C9_svg_excluded INCLUDE_EXTENSIONS fsDemo "icon.svg" (by decide)).1,
   (C9_svg_excluded INCLUDE_EXTENSIONS fsDemo "icon.svg" (by decide)).2.1⟩

/-- C6: create_separator always returns a string and never raises: an
extension absent from COMMENT_MAP defaults to the "#" line style; a .py
path produces two identical 80-character "#" border lines flanking a line
holding the literal path; a .css path produces a block opened by the
literal start token and closed by the end token around the path, with a
fill of never-negative (truncated) length; and the one style shape on
which the Python body raises (an empty block start token) lands in the
plain "===" fallback block around the raw path. -/
theorem C6_create_separator (p : String) :
    (COMMENT_MAP.lookup (lowerExt p) = none →
      create_separator p = create_separator_styled (CommentStyle.line "#") p)
    ∧ (lowerExt p = ".py" →
      create_separator p =
        "\n" ++ strRepeat "#" 80 ++ "\n"
          ++ ("#" ++ " " ++ (" File: " ++ p ++ " ") ++ " " ++ "#")
          ++ "\n" ++ strRepeat "#" 80 ++ "\n\n")
    ∧ (lowerExt p = ".css" →
      create_separator p =
        "\n" ++ "/*" ++ (" File: " ++ p ++ " ")
          ++ charRepeat '/' (blockPadLen "/*" "*/" (" File: " ++ p ++ " "))
          ++ "*/" ++ "\n\n")
    ∧ (∀ e, create_separator_styled (CommentStyle.block "" e) p = fallbackSep p)
    ∧ (strRepeat "#" 80).length = 80 := by
  refine ⟨?_, ?_, ?_, ?_, by decide⟩
  · intro h
    unfold create_separator
    rw [h]
    rfl
  · intro h
    unfold create_separator
    rw [h]
    rfl
  · intro h
    unfold create_separator
    rw [h]
    rfl
  · intro e
    rfl

/-- Witness for C6 at concrete .py, .css and unmapped-extension paths. -/
theorem C6_create_separator_witness :
    create_separator "x.py" =
      "\n" ++ strRepeat "#" 80 ++ "\n"
        ++ ("#" ++ " " ++ (" File: " ++ "x.py" ++ " ") ++ " " ++ "#")
        ++ "\n" ++ strRepeat "#" 80 ++ "\n\n"
    ∧ create_separator "style.css" =
      "\n" ++ "/*" ++ (" File: " ++ "style.css" ++ " ")
        ++ charRepeat '/' (blockPadLen "/*" "*/" (" File: " ++ "style.css" ++ " "))
        ++ "*/" ++ "\n\n"
    ∧ create_separator "file.zig" = create_separator_styled (CommentStyle.line "#") "file.zig" :=
  ⟨(C6_create_separator "x.py").2.1 (by decide),
   (C6_create_separator "style.css").2.2.1 (by decide),
   (C6_create_separator "file.zig").1 (by decide)⟩

/-- C2: read_file_safely always hands the caller a pair of strings: the
encoding attempts run in the fixed order utf-8, utf-8-sig, latin-1,
cp1252, iso-8859-1 and the first codec that decodes wins (shown here for
the three reachable codecs in that priority order); the post-loop
fallback decodes the raw bytes as UTF-8 with replacement characters and
never fails on readable bytes; and when the file cannot be opened at all
the result is the synthetic "[ERROR: Could not read file <path>:
<reason>]" string with encoding tag "error" instead of an exception. -/
theorem C2_read_file_safely (fs : FS) (p : String) :
    (∀ e, fs.readBytes p = .error e →
      read_file_safely fs p =
        ("[ERROR: Could not read file " ++ p ++ ": " ++ e ++ "]\n", "error"))
    ∧ (∀ bs, fs.readBytes p = .ok bs →
        (∀ cps, decodeUtf8Cps bs = some cps →
          read_file_safely fs p = (universalNewlines (cpsToString cps), "utf-8"))
        ∧ (decodeUtf8Cps bs = none → ∀ cps, decodeUtf8SigCps bs = some cps →
          read_file_safely fs p = (universalNewlines (cpsToString cps), "utf-8-sig"))
        ∧ (decodeUtf8Cps bs = none → decodeUtf8SigCps bs = none →
          read_file_safely fs p = (universalNewlines (cpsToString bs), "latin-1")))
    ∧ (∀ bs, fs.readBytes p = .ok bs →
        readReplaceFallback fs p = (cpsToString (decodeUtf8ReplaceCps bs), "utf-8 (with errors)"))
    ∧ ENCODING_DECODERS.map Prod.fst = ["utf-8", "utf-8-sig", "latin-1", "cp1252", "iso-8859-1"] := by
  refine ⟨?_, ?_, ?_, by rfl⟩
  · intro e he
    simp [read_file_safely, tryEncodings, ENCODING_DECODERS, readReplaceFallback, he]
  · intro bs hok
    refine ⟨?_, ?_, ?_⟩
    · intro cps h1
      simp [read_file_safely, tryEncodings, ENCODING_DECODERS, hok, h1]
    · intro h1 cps h2
      simp [read_file_safely, tryEncodings, ENCODING_DECODERS, hok, h1, h2]
    · intro h1 h2
      simp [read_file_safely, tryEncodings, ENCODING_DECODERS, hok, h1, h2]
  · intro bs hok
    simp [readReplaceFallback, hok]

/-- Witness for C2: a readable latin-1-only file, and an unopenable
file. -/
theorem C2_read_file_safely_witness :
    read_file_safely fsDemo "gone.txt" =
      ("[ERROR: Could not read file " ++ "gone.txt" ++ ": "
        ++ "No such file or directory" ++ "]\n", "error")
    ∧ read_file_safely fsDemo "hello.txt" =
      (universalNewlines (cpsToString [104, 105, 0xFF]), "latin-1") :=
  ⟨(C2_read_file_safely fsDemo "gone.txt").1 "No such file or directory" (by rfl),
   ((C2_read_file_safely fsDemo "hello.txt").2.1 [104, 105, 0xFF] (by rfl)).2.2
     (by decide) (by decide)⟩

/-- Case split behind C10: the encoding tag of read_file_safely is always
one of utf-8, utf-8-sig, latin-1 (readable file) or error (unopenable
file), because latin-1 decoding succeeds on every byte sequence. -/
theorem read_tag_cases (fs : FS) (p : String) :
    (∃ e, fs.readBytes p = .error e ∧ (read_file_safely fs p).2 = "error")
    ∨ (∃ bs, fs.readBytes p = .ok bs
        ∧ ((read_file_safely fs p).2 = "utf-8"
            ∨ (read_file_safely fs p).2 = "utf-8-sig"
            ∨ (read_file_safely fs p).2 = "latin-1")) := by
  cases hrb : fs.readBytes p with
  | error e =>
    left
    exact ⟨e, rfl,
      by simp [read_file_safely, tryEncodings, ENCODING_DECODERS, readReplaceFallback, hrb]⟩
  | ok bs =>
    right
    refine ⟨bs, rfl, ?_⟩
    cases h1 : decodeUtf8Cps bs with
    | some cps =>
      left
      simp [read_file_safely, tryEncodings, ENCODING_DECODERS, hrb, h1]
    | none =>
      cases h2 : decodeUtf8SigCps bs with
      | some cps =>
        right; left
        simp [read_file_safely, tryEncodings, ENCODING_DECODERS, hrb, h1, h2]
      | none =>
        right; right
        simp [read_file_safely, tryEncodings, ENCODING_DECODERS, hrb, h1, h2]

/-- C10: for every openable file the encoding tag is utf-8, utf-8-sig or
latin-1 -- the cp1252 and iso-8859-1 attempts and the replacement
fallback are unreachable, since latin-1 decodes every byte sequence --
and the "error" tag arises exactly from a failed open. -/
theorem C10_reachable_encodings (fs : FS) (p : String) :
    ((read_file_safely fs p).2 = "utf-8" ∨ (read_file_safely fs p).2 = "utf-8-sig"
      ∨ (read_file_safely fs p).2 = "latin-1" ∨ (read_file_safely fs p).2 = "error")
    ∧ (∀ bs, fs.readBytes p = .ok bs →
        (read_file_safely fs p).2 = "utf-8" ∨ (read_file_safely fs p).2 = "utf-8-sig"
          ∨ (read_file_safely fs p).2 = "latin-1")
    ∧ ((read_file_safely fs p).2 = "error" → ∃ e, fs.readBytes p = .error e)
    ∧ (read_file_safely fs p).2 ≠ "cp1252"
    ∧ (read_file_safely fs p).2 ≠ "iso-8859-1"
    ∧ (read_file_safely fs p).2 ≠ "utf-8 (with errors)" := by
  rcases read_tag_cases fs p with ⟨e, he, htag⟩ | ⟨bs, hok, htag⟩
  · refine ⟨Or.inr (Or.inr (Or.inr htag)), ?_, fun _ => ⟨e, he⟩, ?_, ?_, ?_⟩
    · intro bs hbs
      rw [he] at hbs
      exact absurd hbs (by simp)
    · rw [htag]; decide
    · rw [htag]; decide
    · rw [htag]; decide
  · have h3 : (read_file_safely fs p).2 = "utf-8" ∨ (read_file_safely fs p).2 = "utf-8-sig"
        ∨ (read_file_safely fs p).2 = "latin-1" := htag
    refine ⟨?_, fun _ _ => h3, ?_, ?_, ?_, ?_⟩
    · rcases h3 with h | h | h
      · exact Or.inl h
      · exact Or.inr (Or.inl h)
      · exact Or.inr (Or.inr (Or.inl h))
    · intro herr
      rcases h3 with h | h | h <;> rw [h] at herr <;> exact absurd herr (by decide)
    · rcases h3 with h | h | h <;> rw [h] <;> decide
    · rcases h3 with h | h | h <;> rw [h] <;> decide
    · rcases h3 with h | h | h <;> rw [h] <;> decide

/-- Witness for C10 on a concrete openable file. -/
theorem C10_reachable_encodings_witness :
    (read_file_safely fsDemo "hello.txt").2 = "utf-8"
      ∨ (read_file_safely fsDemo "hello.txt").2 = "utf-8-sig"
      ∨ (read_file_safely fsDemo "hello.txt").2 = "latin-1" :=
  (C10_reachable_encodings fsDemo "hello.txt").2.1 [104, 105, 0xFF] (by rfl)

/-- Unfolding of handleFile when the file is skipped by the classifier. -/
theorem handleFile_skip (incl : List String) (fs : FS) (raises : String → Option String)
    (st : Summary) (p : String) (h : should_include_file incl fs p = false) :
    handleFile incl fs raises st p = st := by
  simp [handleFile, h]

/-- Counting invariant of the per-file loop: the processed counter grows
by exactly the number of included non-raising paths, and the error
counter by exactly the number of included raising paths. -/
theorem runFiles_counts (incl : List String) (fs : FS) (raises : String → Option String) :
    ∀ (ps : List String) (st : Summary),
      (runFiles incl fs raises st ps).processed
          = st.processed + (processedPaths incl fs raises ps).length
      ∧ (runFiles incl fs raises st ps).errors
          = st.errors + (erroredPaths incl fs raises ps).length := by
  intro ps
  induction ps with
  | nil =>
    intro st
    constructor <;> simp [runFiles, processedPaths, erroredPaths]
  | cons p ps ih =>
    intro st
    have hrun : runFiles incl fs raises st (p :: ps)
        = runFiles incl fs raises (handleFile incl fs raises st p) ps := rfl
    obtain ⟨ihp, ihe⟩ := ih (handleFile incl fs raises st p)
    rw [hrun]
    by_cases hinc : should_include_file incl fs p = true
    · cases hr : raises p with
      | none =>
        constructor
        · rw [ihp]
          simp [handleFile, hinc, hr, processedPaths, List.filter_cons]
          omega
        · rw [ihe]
          simp [handleFile, hinc, hr, erroredPaths, List.filter_cons]
      | some msg =>
        constructor
        · rw [ihp]
          simp [handleFile, hinc, hr, processedPaths, List.filter_cons]
        · rw [ihe]
          simp [handleFile, hinc, hr, erroredPaths, List.filter_cons]
          omega
    · have hinc2 : should_include_file incl fs p = false := by
        cases hx : should_include_file incl fs p
        · rfl
        · exact absurd hx hinc
      constructor
      · rw [ihp]
        simp [handleFile_skip incl fs raises st p hinc2, processedPaths,
          List.filter_cons, hinc2]
      · rw [ihe]
        simp [handleFile_skip incl fs raises st p hinc2, erroredPaths,
          List.filter_cons, hinc2]

/-- The item loop is the file loop over the concatenation of every
item's handled paths. -/
theorem runItems_eq_runFiles (ignore incl : List String) (fs : FS)
    (raises : String → Option String) :
    ∀ (items : List SelectedItem) (st : Summary),
      runItems ignore incl fs raises st items
        = runFiles incl fs raises st (allItemPaths ignore items) := by
  intro items
  induction items with
  | nil => intro st; rfl
  | cons it its ih =>
    intro st
    have h1 : runItems ignore incl fs raises st (it :: its)
        = runItems ignore incl fs raises
            (runFiles incl fs raises st (itemFilePaths ignore it)) its := rfl
    have h2 : allItemPaths ignore (it :: its)
        = itemFilePaths ignore it ++ allItemPaths ignore its := by
      simp [allItemPaths]
    rw [h1, ih, h2]
    simp [runFiles, List.foldl_append]

/-- C7: over one run each handled path contributes to exactly one
counter: the run's processed counter grows by the number of included
paths processed without exception and the error counter by the number of
included paths whose processing raised, and no path is in both sets; the
processed counter is incremented only in the branch where the separator
and content were written without exception, while the exception branch
increments the error counter, appends the path-and-reason message to the
error log, and writes an inline error marker in place of content before
processing continues. -/
theorem C7_counter_disjointness (ignore incl : List String) (fs : FS)
    (raises : String → Option String) (st : Summary) (items : List SelectedItem) :
    ((runItems ignore incl fs raises st items).processed
        = st.processed + (processedPaths incl fs raises (allItemPaths ignore items)).length
      ∧ (runItems ignore incl fs raises st items).errors
        = st.errors + (erroredPaths incl fs raises (allItemPaths ignore items)).length)
    ∧ (∀ p, p ∈ processedPaths incl fs raises (allItemPaths ignore items) →
        p ∉ erroredPaths incl fs raises (allItemPaths ignore items))
    ∧ (∀ p, should_include_file incl fs p = true → raises p = none →
        handleFile incl fs raises st p
          = { st with
                processed := st.processed + 1,
                output := st.output ++ create_separator p
                  ++ (read_file_safely fs p).1 ++ "\n\n" })
    ∧ (∀ p msg, should_include_file incl fs p = true → raises p = some msg →
        handleFile incl fs raises st p
          = { st with
                errors := st.errors + 1,
                errorLog := st.errorLog ++ ["Error processing " ++ p ++ ": " ++ msg],
                output := st.output
                  ++ ("[ERROR: Error processing " ++ p ++ ": " ++ msg ++ "]\n\n") }) := by
  refine ⟨?_, ?_, ?_, ?_⟩
  · rw [runItems_eq_runFiles]
    exact runFiles_counts incl fs raises (allItemPaths ignore items) st
  · intro p hp hq
    have h1 := (List.mem_filter.mp hp).2
    have h2 := (List.mem_filter.mp hq).2
    simp only [Bool.and_eq_true] at h1 h2
    rcases h1 with ⟨_, hnone⟩
    rcases h2 with ⟨_, hsome⟩
    cases hx : raises p with
    | none => rw [hx] at hsome; exact absurd hsome (by simp)
    | some m => rw [hx] at hnone; exact absurd hnone (by simp)
  · intro p h1 h2
    simp [handleFile, h1, h2]
  · intro p msg h1 h2
    simp [handleFile, h1, h2]

/-- Witness for C7: the success and error branches of handleFile at
concrete files, via the theorem's two branch conjuncts. -/
theorem C7_counter_disjointness_witness :
    handleFile [] fsDemo raisesDemo ⟨0, 0, [], ""⟩ "hello.txt"
      = { (⟨0, 0, [], ""⟩ : Summary) with
            processed := 0 + 1,
            output := "" ++ create_separator "hello.txt"
              ++ (read_file_safely fsDemo "hello.txt").1 ++ "\n\n" }
    ∧ handleFile [] fsDemo raisesDemo ⟨0, 0, [], ""⟩ "boom.txt"
      = { (⟨0, 0, [], ""⟩ : Summary) with
            errors := 0 + 1,
            errorLog := [] ++ ["Error processing " ++ "boom.txt" ++ ": " ++ "disk full"],
            output := ""
              ++ ("[ERROR: Error processing " ++ "boom.txt" ++ ": " ++ "disk full"
                  ++ "]\n\n") } :=
  ⟨(C7_counter_disjointness [] [] fsDemo raisesDemo ⟨0, 0, [], ""⟩ []).2.2.1
      "hello.txt" (by decide) (by rfl),
   (C7_counter_disjointness [] [] fsDemo raisesDemo ⟨0, 0, [], ""⟩ []).2.2.2
      "boom.txt" "disk full" (by decide) (by rfl)⟩

/-- Counterexample to C8 as stated: the claim says discarding the empty
output artifact is the caller's responsibility and not an action the
Assembler performs itself, but on a selection yielding zero includable
files run_combination itself removes the output file (the os.remove call
of the zero-processed branch, modelled by the removedOutput flag). -/
theorem C8_counterexample_removes_output :
    (run_combination [] [] fsDemo (fun _ => none)
        [SelectedItem.file "logo.png"] "out.txt").summary.processed = 0
    ∧ (run_combination [] [] fsDemo (fun _ => none)
        [SelectedItem.file "logo.png"] "out.txt").removedOutput = true := by
  constructor <;> rfl

/-- C8 as amended: for every selection yielding zero includable files the
run completes with a summary reporting zero processed files and the
"no files were found" outcome, and the Assembler itself removes the
otherwise-empty output artifact (rather than leaving disposal to the
caller). -/
theorem C8_no_content_outcome (ignore incl : List String) (fs : FS)
    (raises : String → Option String) (items : List SelectedItem) (outName : String)
    (h : ∀ p ∈ allItemPaths ignore items, should_include_file incl fs p = false) :
    (run_combination ignore incl fs raises items outName).summary.processed = 0
    ∧ (run_combination ignore incl fs raises items outName).removedOutput = true
    ∧ (run_combination ignore incl fs raises items outName).statusMsg
        = "Completed. No files were found." := by
  have hnil : processedPaths incl fs raises (allItemPaths ignore items) = [] := by
    rw [processedPaths, List.filter_eq_nil_iff]
    intro p hp
    simp [h p hp]
  have hproc : (runItems ignore incl fs raises
      { processed := 0, errors := 0, errorLog := [], output := headerFor outName }
      items).processed = 0 := by
    rw [runItems_eq_runFiles,
      (runFiles_counts incl fs raises (allItemPaths ignore items) _).1, hnil]
    rfl
  refine ⟨?_, ?_, ?_⟩ <;> simp [run_combination, hproc]

/-- Witness for C8's amended claim at a concrete zero-includable
selection. -/
theorem C8_no_content_outcome_witness :
    (run_combination [] [] fsDemo raisesDemo
        [SelectedItem.file "missing.txt"] "out.txt").summary.processed = 0
    ∧ (run_combination [] [] fsDemo raisesDemo
        [SelectedItem.file "missing.txt"] "out.txt").removedOutput = true
    ∧ (run_combination [] [] fsDemo raisesDemo
        [SelectedItem.file "missing.txt"] "out.txt").statusMsg
        = "Completed. No files were found." :=
  C8_no_content_outcome [] [] fsDemo raisesDemo [SelectedItem.file "missing.txt"]
    "out.txt" (by decide)

end Amalg
